import Mathlib

/-!
Verification of the hypertor HTTP-over-Tor client (`src/lib.rs`).

We shallowly embed the pure control flow of the library: the header-value
validity check of the `http` crate (used by `HeaderValue::from_str`), the
URI data model (`scheme`, `authority` with `host`/`port`), the request
rebuild performed by `Client::send_request` (lines 161-175), the stream
construction of `Client::create_stream` (lines 183-218) with the external
Tor transport and TLS connector modelled as oracles and an explicit event
trace, and `ClientConfigBuilder::build` (lines 56-71) with its fallible
default constructors modelled as oracles.  Machine integers (`u16` ports)
are modelled as `Nat`; byte bodies as `List Nat`; panics (`unwrap`,
`expect`) as explicit outcome constructors.
-/

namespace Hypertor

/-- A byte is valid inside an HTTP header value, per the `http` crate
(`HeaderValue`): `b >= 32 && b != 127 || b == 9`.  We apply it to the
code points of the authority / content-type strings. -/
def isValidHeaderValueChar (c : Char) : Bool :=
  (32 ≤ c.toNat && c.toNat ≠ 127) || c.toNat == 9

/-- A string is a valid HTTP header value when every character is. -/
def isValidHeaderValue (s : String) : Bool :=
  s.toList.all isValidHeaderValueChar

/-- `HeaderValue::from_str`: succeeds exactly on valid header values,
returning the value unchanged. -/
def headerValueFromStr (s : String) : Option String :=
  if isValidHeaderValue s then some s else none

/-- The authority component of a URI (`hyper::http::uri::Authority`):
optional userinfo, a host, an optional port. -/
structure Authority where
  userinfo : Option String
  host : String
  port : Option Nat
deriving DecidableEq

/-- `Authority::as_str`: the textual form `userinfo@host:port` with the
optional parts omitted when absent. -/
def Authority.as_str (a : Authority) : String :=
  (match a.userinfo with
   | some u => u ++ "@"
   | none => "") ++ a.host ++
  (match a.port with
   | some p => ":" ++ toString p
   | none => "")

/-- A URI (`hyper::Uri`): optional scheme, optional authority, path.
Schemes are their lowercase canonical strings ("http", "https", ...). -/
structure Uri where
  scheme : Option String
  authority : Option Authority
  path : String
deriving DecidableEq

/-- `Uri::host`: the host of the authority, when present. -/
def Uri.host (u : Uri) : Option String :=
  u.authority.map Authority.host

/-- `Uri::port_u16`: the explicit port of the authority, when present. -/
def Uri.port_u16 (u : Uri) : Option Nat :=
  u.authority.bind Authority.port

/-- `Scheme::HTTPS` compares equal exactly to the canonical string. -/
def Scheme.HTTPS : String := "https"

/-- Header lists in canonical form: `hyper` stores header names lowercased,
and iteration / `Request::builder().header` appends pairs in order.  We
model a header map as the ordered list of (lowercase-name, value) pairs. -/
abbrev Headers := List (String × String)

/-- `HeaderMap::contains_key` on a canonical lowercase name. -/
def Headers.contains_key (hs : Headers) (k : String) : Bool :=
  hs.any (fun p => p.1 == k)

/-- The pairs of a header list carrying a given name, in order. -/
def Headers.valuesOf (hs : Headers) (k : String) : Headers :=
  hs.filter (fun p => p.1 == k)

/-- An HTTP request as the dispatcher sees it: method, URI, ordered
headers, buffered body bytes. -/
structure Request where
  method : String
  uri : Uri
  headers : Headers
  body : List Nat
deriving DecidableEq

/-- An HTTP response; only the status matters to the embedding. -/
structure Response where
  status : Nat
deriving DecidableEq

/-- Outcome of the request rebuild inside `send_request`: either the
rebuilt request, or a panic (the `unwrap` on `HeaderValue::from_str`). -/
inductive RebuildOutcome
  | ok (r : Request)
  | panics (msg : String)
deriving DecidableEq

/-- The pure request rebuild of `Client::send_request` (src/lib.rs
161-175): a fresh builder takes the caller's URI and method, every
caller-supplied header is appended in iteration order, and when no `host`
header is present and the URI has an authority, a `host` header is
appended whose value is `HeaderValue::from_str(authority.as_str())`,
unwrapped — a panic when the authority is not a valid header value. -/
def rebuild_request (req : Request) : RebuildOutcome :=
  if req.headers.contains_key "host" then
    .ok { method := req.method, uri := req.uri,
          headers := req.headers, body := req.body }
  else
    match req.uri.authority with
    | some a =>
      match headerValueFromStr a.as_str with
      | some host_header_value =>
        .ok { method := req.method, uri := req.uri,
              headers := req.headers ++ [("host", host_header_value)],
              body := req.body }
      | none => .panics "called Result::unwrap on an Err value"
    | none =>
      .ok { method := req.method, uri := req.uri,
            headers := req.headers, body := req.body }

/-- A stream capability: the raw Tor stream, or a stream wrapped by a TLS
handshake against a host. -/
inductive StreamCap
  | raw (id : Nat)
  | tlsWrapped (host : String) (inner : StreamCap)
deriving DecidableEq

/-- `std::io::ErrorKind`, restricted to the kinds the library produces. -/
inductive IoErrorKind
  | invalidInput
  | other
deriving DecidableEq

/-- A `std::io::Error`: a kind plus the wrapped error's message. -/
structure IoError where
  kind : IoErrorKind
  msg : String
deriving DecidableEq

/-- Observable external calls made while building a stream and
dispatching a request. -/
inductive Event
  | torConnect (host : String) (port : Nat)
  | tlsConnect (host : String)
  | httpHandshake
  | submitted (r : Request)
deriving DecidableEq

/-- Oracles for the external collaborators of `create_stream`: the Tor
client's `connect((host, port))` and the TLS connector's
`connect(host, stream)`.  An `Except.error` carries the collaborator's
error message. -/
structure Mocks where
  torConnect : String → Nat → Except String StreamCap
  tlsConnect : String → StreamCap → Except String StreamCap

/-- The port picked by `create_stream` (src/lib.rs 192-196): the explicit
URI port when present, else 443 when the https flag is set, else 80. -/
def resolvedPort (url : Uri) (https : Bool) : Nat :=
  match url.port_u16 with
  | some port => port
  | none => if https then 443 else 80

/-- `Client::create_stream` (src/lib.rs 183-218): extract the host
(`InvalidInput` io error "Missing host" when absent), compute the
https flag by comparing the scheme to `Scheme::HTTPS`, pick the port
(explicit, else 443 when https, else 80), connect through Tor (failure
wrapped as an io error of kind `Other`), and when https wrap the stream
with TLS against the host (failure wrapped as an io error of kind
`Other`), otherwise return the raw stream unchanged.  The second
component records the external calls in order. -/
def create_stream (m : Mocks) (url : Uri) :
    Except IoError StreamCap × List Event :=
  match url.host with
  | none => (.error ⟨.invalidInput, "Missing host"⟩, [])
  | some host =>
    let https := url.scheme == some Scheme.HTTPS
    let port := resolvedPort url https
    match m.torConnect host port with
    | .error e => (.error ⟨.other, e⟩, [.torConnect host port])
    | .ok stream =>
      if https then
        match m.tlsConnect host stream with
        | .error e =>
          (.error ⟨.other, e⟩, [.torConnect host port, .tlsConnect host])
        | .ok wrapped_stream =>
          (.ok wrapped_stream, [.torConnect host port, .tlsConnect host])
      else
        (.ok stream, [.torConnect host port])

/-- Oracles for the HTTP engine boundary used by `send_request`:
`hyper::client::conn::http1::handshake` over the stream, and the request
sender's `send_request`. -/
structure HttpMocks extends Mocks where
  handshake : StreamCap → Except String Unit
  sendOnWire : Request → Except String Response

/-- Outcome of `Client::send_request`: a response, an io error bubbled up
from `create_stream`, a hyper error from the handshake or the send, or a
panic from the `Host`-header synthesis. -/
inductive SendOutcome
  | ok (resp : Response)
  | errIo (e : IoError)
  | errHttp (e : String)
  | panics (msg : String)
deriving DecidableEq

/-- `Client::send_request` (src/lib.rs 143-180): create the stream,
perform the HTTP/1.1 handshake over it (the connection driver is spawned
fire-and-forget and does not affect the outcome), rebuild the request
with `Host` normalization, and submit it through the request sender.
The second component is the trace of external calls, the submitted
rebuilt request included. -/
def send_request (m : HttpMocks) (req : Request) :
    SendOutcome × List Event :=
  match create_stream m.toMocks req.uri with
  | (.error e, tr) => (.errIo e, tr)
  | (.ok stream, tr) =>
    match m.handshake stream with
    | .error e => (.errHttp e, tr ++ [.httpHandshake])
    | .ok _ =>
      match rebuild_request req with
      | .panics msg => (.panics msg, tr ++ [.httpHandshake])
      | .ok final_req =>
        match m.sendOnWire final_req with
        | .error e =>
          (.errHttp e, tr ++ [.httpHandshake, .submitted final_req])
        | .ok resp =>
          (.ok resp, tr ++ [.httpHandshake, .submitted final_req])

/-- `Client::get` (src/lib.rs 112-121): `Request::get(uri)` with an
`Empty` body.  The URI is already converted; the builder cannot fail. -/
def Client.get (uri : Uri) : Request :=
  { method := "GET", uri := uri, headers := [], body := [] }

/-- `Client::head` (src/lib.rs 100-109): `Request::head(uri)` with an
`Empty` body. -/
def Client.head (uri : Uri) : Request :=
  { method := "HEAD", uri := uri, headers := [], body := [] }

/-- `Client::post` (src/lib.rs 124-140): `Request::post(uri)` with a
`content-type` header from the caller's string and a `Full` body of the
caller's bytes.  The `&str → HeaderValue` conversion inside
`.header(CONTENT_TYPE, content_type)` is fallible; the builder surfaces
it as an error from `.body(..)`. -/
def Client.post (uri : Uri) (content_type : String) (body : List Nat) :
    Except String Request :=
  match headerValueFromStr content_type with
  | none => .error "invalid header value"
  | some v =>
    .ok { method := "POST", uri := uri,
          headers := [("content-type", v)], body := body }

/-- TLS connector settings, abstracted to an identifier. -/
structure TlsConnector where
  id : Nat
deriving DecidableEq

/-- Tor client settings, abstracted to an identifier. -/
structure TorClientConfig where
  id : Nat
deriving DecidableEq

/-- `ClientConfig` (src/lib.rs 21-26). -/
structure ClientConfig where
  tls_config : TlsConnector
  tor_config : TorClientConfig
deriving DecidableEq

/-- `ClientConfigBuilder` (src/lib.rs 29-32). -/
structure ClientConfigBuilder where
  tls_config : Option TlsConnector
  tor_config : Option TorClientConfig
deriving DecidableEq

/-- `ClientConfigBuilder::new` (src/lib.rs 36-41). -/
def ClientConfigBuilder.new : ClientConfigBuilder :=
  { tls_config := none, tor_config := none }

/-- The `tls_config` setter (src/lib.rs 44-47). -/
def ClientConfigBuilder.setTls (b : ClientConfigBuilder)
    (tls_config : TlsConnector) : ClientConfigBuilder :=
  { b with tls_config := some tls_config }

/-- The `tor_config` setter (src/lib.rs 50-53). -/
def ClientConfigBuilder.setTor (b : ClientConfigBuilder)
    (tor_config : TorClientConfig) : ClientConfigBuilder :=
  { b with tor_config := some tor_config }

/-- Outcome of `ClientConfigBuilder::build`: the `Ok` branch of the
`anyhow::Result`, the `Err` branch (a config error result — never
produced by the code), or a panic from one of the `expect` calls. -/
inductive BuildOutcome
  | ok (c : ClientConfig)
  | err (e : String)
  | panics (msg : String)
deriving DecidableEq

/-- `ClientConfigBuilder::build` (src/lib.rs 56-71): each unset field is
defaulted via the external default constructor, whose failure is
`expect`ed — a panic, not an `Err` return.  The default constructors
(`TlsConnector::builder().build()` and the Tor config builder) are
oracles. -/
def ClientConfigBuilder.build (b : ClientConfigBuilder)
    (tlsDefault : Except String TlsConnector)
    (torDefault : Except String TorClientConfig) : BuildOutcome :=
  match (match b.tls_config with
         | some t => Except.ok t
         | none => tlsDefault : Except String TlsConnector) with
  | .error _ => .panics "Failed to create default TlsConnector"
  | .ok tls =>
    match (match b.tor_config with
           | some t => Except.ok t
           | none => torDefault : Except String TorClientConfig) with
    | .error _ => .panics "Failed to create default TorClientConfig"
    | .ok tor => .ok { tls_config := tls, tor_config := tor }

/-! Concrete fixtures for evaluating the model on closed inputs. -/

/-- Oracles where every external collaborator succeeds. -/
def mocksAllOk : HttpMocks where
  torConnect := fun _ _ => .ok (.raw 0)
  tlsConnect := fun h2 s => .ok (.tlsWrapped h2 s)
  handshake := fun _ => .ok ()
  sendOnWire := fun _ => .ok ⟨200⟩

/-- Oracles whose Tor connect fails deterministically. -/
def mocksTorFail : HttpMocks :=
  { mocksAllOk with torConnect := fun _ _ => .error "circuit failed" }

/-- Oracles whose TLS handshake fails deterministically. -/
def mocksTlsFail : HttpMocks :=
  { mocksAllOk with tlsConnect := fun _ _ => .error "bad certificate" }

/-- A plain authority with neither userinfo nor port. -/
def authExample : Authority := ⟨none, "example.onion", none⟩

/-- An https URI with no explicit port. -/
def uriHttpsExample : Uri := ⟨some "https", some authExample, "/"⟩

/-- An http URI with no explicit port. -/
def uriHttpExample : Uri := ⟨some "http", some authExample, "/"⟩

/-- A URI with no authority, hence no host. -/
def uriNoHostExample : Uri := ⟨some "https", none, "/"⟩

/-- An authority whose textual form contains a control character, which is
invalid inside a header value. -/
def authControl : Authority := ⟨none, String.mk [Char.ofNat 1], none⟩

/-- An http URI whose authority is not a valid header value. -/
def uriControlHost : Uri := ⟨some "http", some authControl, "/"⟩

/-- A GET request for the http URI, with no caller headers. -/
def reqGetHttp : Request := ⟨"GET", uriHttpExample, [], []⟩

/-- A GET request for the https URI, with no caller headers. -/
def reqGetHttps : Request := ⟨"GET", uriHttpsExample, [], []⟩

/-- A GET request for the host-less URI. -/
def reqNoHost : Request := ⟨"GET", uriNoHostExample, [], []⟩

/-- A GET request for the URI with the invalid authority. -/
def reqControlHost : Request := ⟨"GET", uriControlHost, [], []⟩

/-- The rebuild of `reqGetHttp`: the synthesized `host` header appended. -/
def frGetHttp : Request :=
  ⟨"GET", uriHttpExample, [("host", "example.onion")], []⟩

/-- The request built by `Client::post` for a plain-text body "ok". -/
def reqPostExample : Request :=
  ⟨"POST", uriHttpExample, [("content-type", "text/plain")], [111, 107]⟩

/-! Helper lemmas shared by the claim theorems. -/

/-- When the URI has no host, `create_stream` fails immediately with the
`InvalidInput` io error and makes no external call. -/
theorem create_stream_missing_host (m : Mocks) (u : Uri) (hh : u.host = none) :
    create_stream m u = (.error ⟨.invalidInput, "Missing host"⟩, []) := by
  unfold create_stream
  rw [hh]

/-- When the transport connect fails at the resolved port, `create_stream`
returns the wrapped io error and the trace stops at the connect. -/
theorem create_stream_tor_error_eq (m : Mocks) (u : Uri) (h e : String)
    (hh : u.host = some h)
    (hfail : m.torConnect h (resolvedPort u (u.scheme == some Scheme.HTTPS))
      = .error e) :
    create_stream m u = (.error ⟨.other, e⟩,
      [.torConnect h (resolvedPort u (u.scheme == some Scheme.HTTPS))]) := by
  unfold create_stream
  rw [hh]
  dsimp only
  rw [hfail]

/-- For a non-https scheme with a successful connect, `create_stream`
returns the raw stream unchanged and never touches TLS. -/
theorem create_stream_plain_ok_eq (m : Mocks) (u : Uri) (h : String)
    (s : StreamCap) (hh : u.host = some h)
    (hsch : (u.scheme == some Scheme.HTTPS) = false)
    (htor : m.torConnect h (resolvedPort u false) = .ok s) :
    create_stream m u = (.ok s, [.torConnect h (resolvedPort u false)]) := by
  unfold create_stream
  rw [hh]
  dsimp only
  rw [hsch, htor]
  simp

/-- For https with a successful connect and a failing TLS handshake,
`create_stream` returns the wrapped io error after the TLS attempt. -/
theorem create_stream_https_tls_error_eq (m : Mocks) (u : Uri) (h : String)
    (s : StreamCap) (e : String) (hh : u.host = some h)
    (hsch : (u.scheme == some Scheme.HTTPS) = true)
    (htor : m.torConnect h (resolvedPort u true) = .ok s)
    (htls : m.tlsConnect h s = .error e) :
    create_stream m u = (.error ⟨.other, e⟩,
      [.torConnect h (resolvedPort u true), .tlsConnect h]) := by
  unfold create_stream
  rw [hh]
  dsimp only
  rw [hsch, htor]
  simp [htls]

/-- For https with a successful connect and TLS handshake, `create_stream`
returns the wrapped stream. -/
theorem create_stream_https_ok_eq (m : Mocks) (u : Uri) (h : String)
    (s s2 : StreamCap) (hh : u.host = some h)
    (hsch : (u.scheme == some Scheme.HTTPS) = true)
    (htor : m.torConnect h (resolvedPort u true) = .ok s)
    (htls : m.tlsConnect h s = .ok s2) :
    create_stream m u = (.ok s2,
      [.torConnect h (resolvedPort u true), .tlsConnect h]) := by
  unfold create_stream
  rw [hh]
  dsimp only
  rw [hsch, htor]
  simp [htls]

/-- Shape of the `create_stream` trace when a host is present: the Tor
connect at the resolved port comes first, everything after it is a TLS
attempt against the same host, and for a non-https scheme there is
nothing after it. -/
theorem create_stream_trace_shape (m : Mocks) (u : Uri) (h : String)
    (hh : u.host = some h) :
    ∃ tl, (create_stream m u).2 =
        .torConnect h (resolvedPort u (u.scheme == some Scheme.HTTPS)) :: tl ∧
      (∀ ev ∈ tl, ev = Event.tlsConnect h) ∧
      ((u.scheme == some Scheme.HTTPS) = false → tl = []) := by
  unfold create_stream
  rw [hh]
  dsimp only
  cases hsch : (u.scheme == some Scheme.HTTPS) with
  | false =>
    cases htor : m.torConnect h (resolvedPort u false) with
    | error e => exact ⟨[], by simp, by simp, fun _ => rfl⟩
    | ok s => exact ⟨[], by simp, by simp, fun _ => rfl⟩
  | true =>
    cases htor : m.torConnect h (resolvedPort u true) with
    | error e => exact ⟨[], by simp, by simp, fun _ => rfl⟩
    | ok s =>
      cases htls : m.tlsConnect h s with
      | error e =>
        exact ⟨[.tlsConnect h], by simp [htls], by simp, by simp⟩
      | ok s2 =>
        exact ⟨[.tlsConnect h], by simp [htls], by simp, by simp⟩

/-- The `create_stream` trace never contains a submission event. -/
theorem submitted_not_mem_create_stream (m : Mocks) (u : Uri) (r : Request) :
    Event.submitted r ∉ (create_stream m u).2 := by
  unfold create_stream
  split
  · simp
  · dsimp only
    split
    · simp
    · split
      · split <;> simp
      · simp

/-- The `send_request` trace is the `create_stream` trace followed only by
the HTTP handshake and submission events. -/
theorem send_request_trace_split (m : HttpMocks) (req : Request) :
    ∃ extra, (send_request m req).2 =
        (create_stream m.toMocks req.uri).2 ++ extra ∧
      ∀ ev ∈ extra, ev = Event.httpHandshake ∨
        ∃ fr, ev = Event.submitted fr := by
  rcases hcs : create_stream m.toMocks req.uri with ⟨res, tr⟩
  unfold send_request
  rw [hcs]
  cases res with
  | error e => exact ⟨[], by simp, by simp⟩
  | ok s =>
    cases hhs : m.handshake s with
    | error e => exact ⟨[.httpHandshake], by simp [hhs], by simp⟩
    | ok uu =>
      cases hreb : rebuild_request req with
      | panics msg => exact ⟨[.httpHandshake], by simp [hhs, hreb], by simp⟩
      | ok fr =>
        cases hsow : m.sendOnWire fr with
        | error e =>
          exact ⟨[.httpHandshake, .submitted fr],
            by simp [hhs, hreb, hsow], by simp⟩
        | ok resp =>
          exact ⟨[.httpHandshake, .submitted fr],
            by simp [hhs, hreb, hsow], by simp⟩

/-- A submission event in the `send_request` trace pins down the submitted
request as the successful rebuild of the caller's request. -/
theorem submitted_eq_rebuild (m : HttpMocks) (req fr : Request)
    (hsub : Event.submitted fr ∈ (send_request m req).2) :
    rebuild_request req = .ok fr := by
  rcases hcs : create_stream m.toMocks req.uri with ⟨res, tr⟩
  have hnot : Event.submitted fr ∉ tr := by
    have hmem := submitted_not_mem_create_stream m.toMocks req.uri fr
    rw [hcs] at hmem
    exact hmem
  unfold send_request at hsub
  rw [hcs] at hsub
  cases res with
  | error e =>
    dsimp only at hsub
    exact absurd hsub hnot
  | ok s =>
    dsimp only at hsub
    cases hhs : m.handshake s with
    | error e =>
      rw [hhs] at hsub
      simp only [List.mem_append, List.mem_singleton] at hsub
      rcases hsub with h1 | h1
      · exact absurd h1 hnot
      · cases h1
    | ok uu =>
      rw [hhs] at hsub
      cases hreb : rebuild_request req with
      | panics msg =>
        rw [hreb] at hsub
        simp only [List.mem_append, List.mem_singleton] at hsub
        rcases hsub with h1 | h1
        · exact absurd h1 hnot
        · cases h1
      | ok fr2 =>
        rw [hreb] at hsub
        dsimp only at hsub
        cases hsow : m.sendOnWire fr2 with
        | error e =>
          rw [hsow] at hsub
          simp only [List.mem_append, List.mem_cons, List.mem_singleton,
            List.not_mem_nil, or_false] at hsub
          rcases hsub with h1 | h1 | h1
          · exact absurd h1 hnot
          · cases h1
          · rw [Event.submitted.injEq] at h1
            rw [h1]
        | ok resp =>
          rw [hsow] at hsub
          simp only [List.mem_append, List.mem_cons, List.mem_singleton,
            List.not_mem_nil, or_false] at hsub
          rcases hsub with h1 | h1 | h1
          · exact absurd h1 hnot
          · cases h1
          · rw [Event.submitted.injEq] at h1
            rw [h1]

/-- Rebuild when the caller already supplied a `host` header: everything
is copied verbatim. -/
theorem rebuild_request_of_contains (req : Request)
    (h : req.headers.contains_key "host" = true) :
    rebuild_request req = .ok ⟨req.method, req.uri, req.headers, req.body⟩ := by
  simp [rebuild_request, h]

/-- Rebuild when no `host` header was supplied and the authority is a
valid header value: the synthesized `host` header is appended. -/
theorem rebuild_request_of_not_contains (req : Request) (a : Authority)
    (h : req.headers.contains_key "host" = false)
    (ha : req.uri.authority = some a)
    (hv : isValidHeaderValue a.as_str = true) :
    rebuild_request req =
      .ok ⟨req.method, req.uri,
        req.headers ++ [("host", a.as_str)], req.body⟩ := by
  simp [rebuild_request, h, ha, headerValueFromStr, hv]

/-- Rebuild when no `host` header was supplied and the authority is not a
valid header value: the unwrap panics. -/
theorem rebuild_request_of_invalid (req : Request) (a : Authority)
    (h : req.headers.contains_key "host" = false)
    (ha : req.uri.authority = some a)
    (hv : isValidHeaderValue a.as_str = false) :
    rebuild_request req = .panics "called Result::unwrap on an Err value" := by
  simp [rebuild_request, h, ha, headerValueFromStr, hv]

/-- Rebuild when no `host` header was supplied and the URI has no
authority: everything is copied verbatim, no header is synthesized. -/
theorem rebuild_request_no_authority (req : Request)
    (h : req.headers.contains_key "host" = false)
    (ha : req.uri.authority = none) :
    rebuild_request req = .ok ⟨req.method, req.uri, req.headers, req.body⟩ := by
  simp [rebuild_request, h, ha]

/-- A header list whose `contains_key` is false filters to nothing on that
name. -/
theorem filter_key_eq_nil_of_not_contains (hs : Headers) (k : String)
    (h : hs.contains_key k = false) :
    hs.filter (fun p => p.1 == k) = [] := by
  simp only [Headers.contains_key, List.any_eq_false] at h
  rw [List.filter_eq_nil_iff]
  exact h

/-! Claim theorems. -/

/-- C4: for every URI whose host component is absent, `send_request`
fails with the `InvalidInput` ("InvalidUri") io error before any
transport connect is attempted — the trace of external calls is empty, so
the Tor client's connect is invoked zero times. -/
theorem send_request_missing_host (m : HttpMocks) (req : Request)
    (hh : req.uri.host = none) :
    send_request m req = (.errIo ⟨.invalidInput, "Missing host"⟩, []) := by
  unfold send_request
  rw [create_stream_missing_host m.toMocks req.uri hh]

/-- C4 witness: the all-succeeding oracles are never consulted for the
host-less URI. -/
theorem send_request_missing_host_witness :
    send_request mocksAllOk reqNoHost =
      (.errIo ⟨.invalidInput, "Missing host"⟩, []) :=
  send_request_missing_host mocksAllOk reqNoHost rfl

/-- C2: for every URI with a host, the transport connect uses the explicit
URI port verbatim when present; otherwise port 443 for the https scheme
and port 80 for any other scheme, and for a non-https scheme no TLS
upgrade is ever performed. -/
theorem create_stream_port_selection (m : Mocks) (u : Uri) (h : String)
    (hh : u.host = some h) :
    (∀ p, u.port_u16 = some p →
        ∃ tl, (create_stream m u).2 = Event.torConnect h p :: tl) ∧
    (u.port_u16 = none → u.scheme = some "https" →
        ∃ tl, (create_stream m u).2 = Event.torConnect h 443 :: tl) ∧
    (u.scheme ≠ some "https" →
        (u.port_u16 = none →
          ∃ tl, (create_stream m u).2 = Event.torConnect h 80 :: tl) ∧
        (∀ h2, Event.tlsConnect h2 ∉ (create_stream m u).2)) := by
  obtain ⟨tl, htl, hev, hnil⟩ := create_stream_trace_shape m u h hh
  refine ⟨?_, ?_, ?_⟩
  · intro p hp
    have hport : resolvedPort u (u.scheme == some Scheme.HTTPS) = p := by
      simp [resolvedPort, hp]
    rw [hport] at htl
    exact ⟨tl, htl⟩
  · intro hp hs
    have hport : resolvedPort u (u.scheme == some Scheme.HTTPS) = 443 := by
      simp [resolvedPort, hp, hs, Scheme.HTTPS]
    rw [hport] at htl
    exact ⟨tl, htl⟩
  · intro hs
    have hb : (u.scheme == some Scheme.HTTPS) = false := by
      simp only [Scheme.HTTPS]
      exact beq_eq_false_iff_ne.mpr hs
    rw [hnil hb] at htl
    constructor
    · intro hp
      have hport : resolvedPort u (u.scheme == some Scheme.HTTPS) = 80 := by
        simp [resolvedPort, hp, hb]
      rw [hport] at htl
      exact ⟨[], htl⟩
    · intro h2
      rw [htl]
      simp

/-- C2 witness: the https URI with no explicit port connects on 443. -/
theorem create_stream_port_selection_witness :
    ((create_stream mocksAllOk.toMocks uriHttpsExample).2).head? =
      some (Event.torConnect "example.onion" 443) := by
  obtain ⟨tl, htl⟩ := (create_stream_port_selection mocksAllOk.toMocks
    uriHttpsExample "example.onion" rfl).2.1 rfl rfl
  rw [htl]
  rfl

/-- C10: every `create_stream` failure is one `std::io::Error` value: a
missing host carries kind `InvalidInput`, while a Tor connect failure and
a TLS handshake failure are both wrapped with kind `Other`, so the two
are not distinguishable by error type or kind at the public surface. -/
theorem create_stream_error_collapse (m : Mocks) (u : Uri) (h : String) :
    (u.host = none →
        (create_stream m u).1 = .error ⟨.invalidInput, "Missing host"⟩) ∧
    (u.host = some h → ∀ e, (∀ port, m.torConnect h port = .error e) →
        (create_stream m u).1 = .error ⟨.other, e⟩) ∧
    (u.host = some h → u.scheme = some "https" →
        ∀ s e, (∀ port, m.torConnect h port = .ok s) →
          m.tlsConnect h s = .error e →
          (create_stream m u).1 = .error ⟨.other, e⟩) := by
  refine ⟨?_, ?_, ?_⟩
  · intro hn
    rw [create_stream_missing_host m u hn]
  · intro hh e hfail
    rw [create_stream_tor_error_eq m u h e hh (hfail _)]
  · intro hh hs s e htor htls
    have hb : (u.scheme == some Scheme.HTTPS) = true := by
      simp [hs, Scheme.HTTPS]
    rw [create_stream_https_tls_error_eq m u h s e hh hb (htor _) htls]

/-- C10 witness: the three failure shapes on closed inputs — `Other` for
both the transport and the TLS failure, `InvalidInput` for the missing
host. -/
theorem create_stream_error_collapse_witness :
    (create_stream mocksAllOk.toMocks uriNoHostExample).1 =
        .error ⟨.invalidInput, "Missing host"⟩ ∧
    (create_stream mocksTorFail.toMocks uriHttpsExample).1 =
        .error ⟨.other, "circuit failed"⟩ ∧
    (create_stream mocksTlsFail.toMocks uriHttpsExample).1 =
        .error ⟨.other, "bad certificate"⟩ := by
  refine ⟨?_, ?_, ?_⟩
  · exact (create_stream_error_collapse mocksAllOk.toMocks uriNoHostExample
      "").1 rfl
  · exact (create_stream_error_collapse mocksTorFail.toMocks uriHttpsExample
      "example.onion").2.1 rfl "circuit failed" (fun _ => rfl)
  · exact (create_stream_error_collapse mocksTlsFail.toMocks uriHttpsExample
      "example.onion").2.2 rfl rfl (.raw 0) "bad certificate"
      (fun _ => rfl) rfl

/-- C5: when the Tor connect fails, `send_request` surfaces the wrapped
transport error (kind `Other` carrying the transport's message) and
neither a TLS upgrade nor an HTTP handshake appears in the trace. -/
theorem send_request_transport_failure (m : HttpMocks) (req : Request)
    (h e : String) (hh : req.uri.host = some h)
    (hfail : ∀ port, m.torConnect h port = .error e) :
    (send_request m req).1 = .errIo ⟨.other, e⟩ ∧
    (∀ h2, Event.tlsConnect h2 ∉ (send_request m req).2) ∧
    Event.httpHandshake ∉ (send_request m req).2 := by
  have hc := create_stream_tor_error_eq m.toMocks req.uri h e hh (hfail _)
  unfold send_request
  rw [hc]
  refine ⟨rfl, ?_, ?_⟩ <;> simp

/-- C5 witness: the deterministically failing transport on the https URI. -/
theorem send_request_transport_failure_witness :
    (send_request mocksTorFail reqGetHttps).1 =
        .errIo ⟨.other, "circuit failed"⟩ ∧
    Event.httpHandshake ∉ (send_request mocksTorFail reqGetHttps).2 := by
  have hw := send_request_transport_failure mocksTorFail reqGetHttps
    "example.onion" "circuit failed" rfl (fun _ => rfl)
  exact ⟨hw.1, hw.2.2⟩

/-- C1: any request submitted by `send_request` that lacked a caller
`host` header carries exactly one `host` header, whose value is the URI's
authority; a request that already carried a `host` header is submitted
with its headers — the `host` value included — unchanged. -/
theorem send_request_host_header (m : HttpMocks) (req fr : Request)
    (a : Authority) (ha : req.uri.authority = some a)
    (hsub : Event.submitted fr ∈ (send_request m req).2) :
    (req.headers.contains_key "host" = false →
        fr.headers.valuesOf "host" = [("host", a.as_str)]) ∧
    (req.headers.contains_key "host" = true →
        fr.headers = req.headers) := by
  have hreb := submitted_eq_rebuild m req fr hsub
  constructor
  · intro hn
    cases hv : isValidHeaderValue a.as_str with
    | false =>
      rw [rebuild_request_of_invalid req a hn ha hv] at hreb
      cases hreb
    | true =>
      rw [rebuild_request_of_not_contains req a hn ha hv] at hreb
      rw [RebuildOutcome.ok.injEq] at hreb
      subst hreb
      simp only [Headers.valuesOf, List.filter_append]
      rw [filter_key_eq_nil_of_not_contains req.headers "host" hn]
      simp
  · intro hy
    rw [rebuild_request_of_contains req hy] at hreb
    rw [RebuildOutcome.ok.injEq] at hreb
    subst hreb
    rfl

/-- C1 witness: the GET request with no headers is submitted with exactly
the synthesized `host` header. -/
theorem send_request_host_header_witness :
    frGetHttp.headers.valuesOf "host" = [("host", authExample.as_str)] :=
  (send_request_host_header mocksAllOk reqGetHttp frGetHttp authExample rfl
    (by decide)).1 rfl

/-- C8: every request submitted by `send_request` has the caller's method
and URI, and the caller's headers verbatim and in order — at most a
synthesized `host` header appended at the end. -/
theorem send_request_frame_preservation (m : HttpMocks) (req fr : Request)
    (hsub : Event.submitted fr ∈ (send_request m req).2) :
    fr.method = req.method ∧ fr.uri = req.uri ∧
    (fr.headers = req.headers ∨
      ∃ v, fr.headers = req.headers ++ [("host", v)]) := by
  have hreb := submitted_eq_rebuild m req fr hsub
  cases hy : req.headers.contains_key "host" with
  | true =>
    rw [rebuild_request_of_contains req hy] at hreb
    rw [RebuildOutcome.ok.injEq] at hreb
    subst hreb
    exact ⟨rfl, rfl, Or.inl rfl⟩
  | false =>
    cases hau : req.uri.authority with
    | none =>
      rw [rebuild_request_no_authority req hy hau] at hreb
      rw [RebuildOutcome.ok.injEq] at hreb
      subst hreb
      exact ⟨rfl, rfl, Or.inl rfl⟩
    | some a =>
      cases hv : isValidHeaderValue a.as_str with
      | false =>
        rw [rebuild_request_of_invalid req a hy hau hv] at hreb
        cases hreb
      | true =>
        rw [rebuild_request_of_not_contains req a hy hau hv] at hreb
        rw [RebuildOutcome.ok.injEq] at hreb
        subst hreb
        exact ⟨rfl, rfl, Or.inr ⟨a.as_str, rfl⟩⟩

/-- C8 witness: the submitted rebuild of the header-less GET request
keeps its method and URI and only appends the `host` header. -/
theorem send_request_frame_preservation_witness :
    frGetHttp.method = reqGetHttp.method ∧
    frGetHttp.uri = reqGetHttp.uri ∧
    (frGetHttp.headers = reqGetHttp.headers ∨
      ∃ v, frGetHttp.headers = reqGetHttp.headers ++ [("host", v)]) :=
  send_request_frame_preservation mocksAllOk reqGetHttp frGetHttp (by decide)

/-- C6: when the connect succeeds but the TLS upgrade fails (reachable
only for the https scheme), `send_request` surfaces the wrapped TLS error
without an HTTP handshake appearing in the trace; for any other scheme
the TLS upgrade is never invoked and the raw stream is returned
unchanged. -/
theorem send_request_tls_failure_and_plain (m : HttpMocks) (req : Request)
    (h : String) (s : StreamCap) (hh : req.uri.host = some h) :
    (req.uri.scheme = some "https" → ∀ e,
        (∀ port, m.torConnect h port = .ok s) →
        m.tlsConnect h s = .error e →
        (send_request m req).1 = .errIo ⟨.other, e⟩ ∧
        Event.httpHandshake ∉ (send_request m req).2) ∧
    (req.uri.scheme ≠ some "https" →
        (∀ h2, Event.tlsConnect h2 ∉ (send_request m req).2) ∧
        ((∀ port, m.torConnect h port = .ok s) →
          (create_stream m.toMocks req.uri).1 = .ok s)) := by
  constructor
  · intro hs e htor htls
    have hb : (req.uri.scheme == some Scheme.HTTPS) = true := by
      simp [hs, Scheme.HTTPS]
    have hc := create_stream_https_tls_error_eq m.toMocks req.uri h s e hh hb
      (htor _) htls
    unfold send_request
    rw [hc]
    exact ⟨rfl, by simp⟩
  · intro hs
    have hb : (req.uri.scheme == some Scheme.HTTPS) = false := by
      simp only [Scheme.HTTPS]
      exact beq_eq_false_iff_ne.mpr hs
    constructor
    · intro h2
      obtain ⟨extra, hex, hev⟩ := send_request_trace_split m req
      obtain ⟨tl, htl, _, hnil⟩ :=
        create_stream_trace_shape m.toMocks req.uri h hh
      rw [hnil hb] at htl
      rw [hex, htl]
      intro hmem
      simp only [List.singleton_append, List.mem_cons] at hmem
      rcases hmem with h1 | h1
      · cases h1
      · rcases hev _ h1 with h2' | ⟨fr, h2'⟩ <;> cases h2'
    · intro htor
      rw [create_stream_plain_ok_eq m.toMocks req.uri h s hh hb (htor _)]

/-- C6 witness: the failing TLS oracle on the https URI surfaces the
wrapped TLS error with no HTTP handshake in the trace. -/
theorem send_request_tls_failure_and_plain_witness :
    (send_request mocksTlsFail reqGetHttps).1 =
        .errIo ⟨.other, "bad certificate"⟩ ∧
    Event.httpHandshake ∉ (send_request mocksTlsFail reqGetHttps).2 :=
  (send_request_tls_failure_and_plain mocksTlsFail reqGetHttps
    "example.onion" (.raw 0) rfl).1 rfl "bad certificate"
    (fun _ => rfl) rfl

/-- C9: when the caller supplied no `host` header and the URI authority is
not a valid header value, `send_request` — reaching the synthesis branch
with all collaborators succeeding — panics on the unwrapped
`HeaderValue::from_str` instead of returning a recoverable error. -/
theorem send_request_host_synthesis_panics (m : HttpMocks) (req : Request)
    (a : Authority) (ha : req.uri.authority = some a)
    (hnh : req.headers.contains_key "host" = false)
    (hinv : isValidHeaderValue a.as_str = false)
    (htor : ∀ h2 p, ∃ s, m.torConnect h2 p = .ok s)
    (htls : ∀ h2 s, ∃ s2, m.tlsConnect h2 s = .ok s2)
    (hhs : ∀ s, m.handshake s = .ok ()) :
    (send_request m req).1 = .panics "called Result::unwrap on an Err value" := by
  have hh : req.uri.host = some a.host := by
    unfold Uri.host
    rw [ha]
    rfl
  have hreb := rebuild_request_of_invalid req a hnh ha hinv
  cases hb : (req.uri.scheme == some Scheme.HTTPS) with
  | true =>
    obtain ⟨s, hst⟩ := htor a.host (resolvedPort req.uri true)
    obtain ⟨s2, hs2⟩ := htls a.host s
    have hc := create_stream_https_ok_eq m.toMocks req.uri a.host s s2 hh hb
      hst hs2
    unfold send_request
    rw [hc]
    dsimp only
    rw [hhs s2, hreb]
  | false =>
    obtain ⟨s, hst⟩ := htor a.host (resolvedPort req.uri false)
    have hc := create_stream_plain_ok_eq m.toMocks req.uri a.host s hh hb hst
    unfold send_request
    rw [hc]
    dsimp only
    rw [hhs s, hreb]

/-- C9 witness: the URI whose authority contains a control character makes
`send_request` panic even though every collaborator succeeds. -/
theorem send_request_host_synthesis_panics_witness :
    (send_request mocksAllOk reqControlHost).1 =
      .panics "called Result::unwrap on an Err value" :=
  send_request_host_synthesis_panics mocksAllOk reqControlHost authControl
    rfl rfl (by decide) (fun h2 p => ⟨.raw 0, rfl⟩)
    (fun h2 s => ⟨.tlsWrapped h2 s, rfl⟩) (fun _ => rfl)

/-- C7: a successfully built POST request carries exactly one
`content-type` header whose value is the caller's string, and its body is
exactly the caller's bytes; GET and HEAD requests are built with an empty
body. -/
theorem request_build_bodies (uri : Uri) (ct : String) (body : List Nat)
    (r : Request) :
    (Client.post uri ct body = .ok r →
        r.headers.valuesOf "content-type" = [("content-type", ct)] ∧
        r.body = body) ∧
    (Client.get uri).body = [] ∧ (Client.head uri).body = [] := by
  refine ⟨?_, rfl, rfl⟩
  intro hok
  unfold Client.post at hok
  cases hv : headerValueFromStr ct with
  | none =>
    rw [hv] at hok
    cases hok
  | some v =>
    rw [hv] at hok
    rw [Except.ok.injEq] at hok
    have hvct : v = ct := by
      unfold headerValueFromStr at hv
      cases hval : isValidHeaderValue ct with
      | false =>
        rw [hval] at hv
        cases hv
      | true =>
        rw [hval] at hv
        simp at hv
        exact hv.symm
    subst hok
    subst hvct
    exact ⟨by simp [Headers.valuesOf], rfl⟩

/-- C7 witness: a plain-text POST for the body "ok". -/
theorem request_build_bodies_witness :
    reqPostExample.headers.valuesOf "content-type" =
        [("content-type", "text/plain")] ∧
    reqPostExample.body = [111, 107] :=
  (request_build_bodies uriHttpExample "text/plain" [111, 107]
    reqPostExample).1 rfl

/-- C3 counterexample: with both fields unset and a TLS default
constructor that errors, `build` terminates the program with a panic (the
`expect` in src/lib.rs 58-62) — it neither returns a `ClientConfig` nor
fails with an error result, refuting the claim that it only ever returns. -/
theorem build_panics_on_default_failure :
    ClientConfigBuilder.new.build (.error "tls default constructor failed")
      (.ok ⟨0⟩) = .panics "Failed to create default TlsConnector" := rfl

/-- C3 amended: `build` never returns an error result; it returns `Ok`
whenever each unset field's default constructor succeeds, and it panics
(terminating the program) when the default construction of an unset field
fails, instead of returning a `ConfigError`. -/
theorem build_never_errs (b : ClientConfigBuilder)
    (tlsD : Except String TlsConnector)
    (torD : Except String TorClientConfig) :
    (∀ e, b.build tlsD torD ≠ .err e) ∧
    (∀ t1 t2,
        (b.tls_config = some t1 ∨ (b.tls_config = none ∧ tlsD = .ok t1)) →
        (b.tor_config = some t2 ∨ (b.tor_config = none ∧ torD = .ok t2)) →
        b.build tlsD torD = .ok ⟨t1, t2⟩) ∧
    (∀ e, b.tls_config = none → tlsD = .error e →
        b.build tlsD torD = .panics "Failed to create default TlsConnector") ∧
    (∀ e t, b.tor_config = none → torD = .error e →
        (b.tls_config = some t ∨ (b.tls_config = none ∧ tlsD = .ok t)) →
        b.build tlsD torD = .panics "Failed to create default TorClientConfig") := by
  refine ⟨?_, ?_, ?_, ?_⟩
  · intro e
    rcases b with ⟨tc, oc⟩
    cases tc <;> cases oc <;> cases tlsD <;> cases torD <;>
      simp [ClientConfigBuilder.build]
  · intro t1 t2 h1 h2
    have e1 : (match b.tls_config with
        | some t => Except.ok t
        | none => tlsD : Except String TlsConnector) = .ok t1 := by
      rcases h1 with h1 | ⟨h1a, h1b⟩
      · rw [h1]
      · rw [h1a, h1b]
    have e2 : (match b.tor_config with
        | some t => Except.ok t
        | none => torD : Except String TorClientConfig) = .ok t2 := by
      rcases h2 with h2 | ⟨h2a, h2b⟩
      · rw [h2]
      · rw [h2a, h2b]
    unfold ClientConfigBuilder.build
    rw [e1, e2]
  · intro e h1 h2
    unfold ClientConfigBuilder.build
    rw [h1, h2]
  · intro e t h1 h2 h3
    have e1 : (match b.tls_config with
        | some t2 => Except.ok t2
        | none => tlsD : Except String TlsConnector) = .ok t := by
      rcases h3 with h3 | ⟨h3a, h3b⟩
      · rw [h3]
      · rw [h3a, h3b]
    unfold ClientConfigBuilder.build
    rw [e1, h1, h2]

/-- C3 witness: the empty builder with succeeding default constructors
builds the defaulted configuration, and with a failing Tor default
constructor it panics with the Tor `expect` message. -/
theorem build_never_errs_witness :
    ClientConfigBuilder.new.build (.ok ⟨1⟩) (.ok ⟨2⟩) = .ok ⟨⟨1⟩, ⟨2⟩⟩ ∧
    ClientConfigBuilder.new.build (.ok ⟨1⟩)
        (.error "tor default constructor failed") =
      .panics "Failed to create default TorClientConfig" :=
  ⟨(build_never_errs ClientConfigBuilder.new (.ok ⟨1⟩) (.ok ⟨2⟩)).2.1 ⟨1⟩ ⟨2⟩
      (Or.inr ⟨rfl, rfl⟩) (Or.inr ⟨rfl, rfl⟩),
    (build_never_errs ClientConfigBuilder.new (.ok ⟨1⟩)
        (.error "tor default constructor failed")).2.2.2
      "tor default constructor failed" ⟨1⟩ rfl rfl (Or.inr ⟨rfl, rfl⟩)⟩

end Hypertor
